import Mathlib

/-!
Shallow embedding of `src/streamlit_app.py` (Apten Profile Switcher).

The embedding covers the resilient batch engine: the retrying HTTP
transport `_make_request_with_retry`, the two-step workflow
`lookup_lead` / `switch_profile` / `process_lead`, and the per-row
orchestration loop of `process_csv`.

Modelling conventions:
- The remote HTTP behaviour is an oracle (`World`): for each logical call
  site, a function from the attempt index to the observed `HttpResult`
  (status code plus the outcome of `response.json()` parsing, or a
  transport-level exception).  The code under test never inspects anything
  else about a response except its status code, the parsed JSON body, and
  `response.text` (for the generic error message), so `HttpResult` carries
  exactly those.
- JSON bodies are modelled by the `Json` subset the program actually
  touches: `None`/`null` and objects with string values.  The program only
  uses Python truthiness of the body, `data.get` with a string default,
  and `str(data)` truncation for diagnostics.
- `time.sleep` calls are recorded in traces (`sleeps` lists hold the
  sleep durations in seconds for the transport, and the orchestrator trace
  records the 0.1 s inter-row pause as a Boolean `paused` flag).
- Python `str.isdigit` / `str.strip` are modelled by their ASCII
  counterparts `Char.isDigit` / `stripStr`; all inputs of interest in
  the claims are ASCII.
- `df.iterrows()` over the default range index yields 0-based positions,
  modelled by the position of the row in the input list.
-/

/-- Constant `MAX_RETRIES` from the source (line 19). -/
def MAX_RETRIES : Nat := 3

/-- Constant `RETRY_DELAY` from the source (line 20), in seconds. -/
def RETRY_DELAY : Nat := 1

/-- The subset of JSON values the program inspects: `null` (Python `None`)
and objects with string values. -/
inductive Json where
  | null : Json
  | obj (fields : List (String × String)) : Json
deriving Repr, DecidableEq

/-- Python truthiness of a parsed JSON body: `None` and the empty dict are
falsy, a non-empty dict is truthy. -/
def Json.truthy : Json → Bool
  | .null => false
  | .obj fields => !fields.isEmpty

/-- Python `data.get(key, default)` for the modelled JSON subset. -/
def Json.getD (j : Json) (key : String) (default : String) : String :=
  match j with
  | .null => default
  | .obj fields =>
    match fields.lookup key with
    | some v => v
    | none => default

/-- A single-quote character, used to render Python `str(dict)` output. -/
def pyQuote : String := String.singleton (Char.ofNat 39)

/-- Python `str(data)` rendering for the modelled JSON subset, as used in
the `"No lead ID in response"` diagnostic (source line 90). -/
def Json.pyStr : Json → String
  | .null => "None"
  | .obj fields =>
    "\x7b" ++
      String.intercalate ", "
        (fields.map (fun p => pyQuote ++ p.1 ++ pyQuote ++ ": " ++ pyQuote ++ p.2 ++ pyQuote)) ++
      "\x7d"

/-- What one HTTP attempt observes: a response with a status code, the
result of `response.json()` parsing (`none` when unparseable) and
`response.text`; or a timeout / connection error / unexpected exception. -/
inductive HttpResult where
  | resp (status : Nat) (body : Option Json) (text : String) : HttpResult
  | timeout : HttpResult
  | connError : HttpResult
  | unexpected (msg : String) : HttpResult
deriving Repr, DecidableEq

/-- Result of `_make_request_with_retry` (the Python triple
`(success, data, error)`), instrumented with the number of HTTP attempts
made and the list of `time.sleep` durations (in seconds) between
attempts. -/
structure CallResult where
  success : Bool
  data : Option Json
  error : String
  attempts : Nat
  sleeps : List Nat
deriving Repr, DecidableEq

/-- The retry loop body of `_make_request_with_retry` (source lines
33-77).  `attempt` is the current 0-based attempt index, `remaining` the
number of loop iterations left (`MAX_RETRIES - attempt`), `sleeps` the
accumulated sleep durations in reverse order.  `responses` gives the
`HttpResult` observed at each attempt index. -/
def retryAux (responses : Nat → HttpResult) :
    Nat → Nat → List Nat → CallResult
  | attempt, 0, sleeps =>
    ⟨false, none, "Failed after " ++ toString MAX_RETRIES ++ " attempts",
      attempt, sleeps.reverse⟩
  | attempt, remaining + 1, sleeps =>
    match responses attempt with
    | .resp status body _text =>
      if status = 200 then
        match body with
        | some j => ⟨true, some j, "", attempt + 1, sleeps.reverse⟩
        | none => ⟨false, none, "Invalid JSON response", attempt + 1, sleeps.reverse⟩
      else if status = 401 then
        ⟨false, none, "Unauthorized - check your API key", attempt + 1, sleeps.reverse⟩
      else if status = 404 then
        ⟨false, none, "Lead not found", attempt + 1, sleeps.reverse⟩
      else if status = 429 then
        if attempt < MAX_RETRIES - 1 then
          retryAux responses (attempt + 1) remaining (RETRY_DELAY * 2 :: sleeps)
        else
          ⟨false, none, "Rate limited", attempt + 1, sleeps.reverse⟩
      else
        if attempt < MAX_RETRIES - 1 then
          retryAux responses (attempt + 1) remaining (RETRY_DELAY :: sleeps)
        else
          ⟨false, none,
            "HTTP " ++ toString status ++ ": " ++ _text.take 200,
            attempt + 1, sleeps.reverse⟩
    | .timeout =>
      if attempt < MAX_RETRIES - 1 then
        retryAux responses (attempt + 1) remaining (RETRY_DELAY :: sleeps)
      else
        ⟨false, none, "Request timed out", attempt + 1, sleeps.reverse⟩
    | .connError =>
      if attempt < MAX_RETRIES - 1 then
        retryAux responses (attempt + 1) remaining (RETRY_DELAY :: sleeps)
      else
        ⟨false, none, "Connection error", attempt + 1, sleeps.reverse⟩
    | .unexpected msg =>
      ⟨false, none, "Unexpected error: " ++ msg, attempt + 1, sleeps.reverse⟩

/-- `_make_request_with_retry` (source lines 31-77), for a supported
method: run the retry loop from attempt 0. -/
def makeRequestWithRetry (responses : Nat → HttpResult) : CallResult :=
  retryAux responses 0 MAX_RETRIES []

/-- Result of `lookup_lead` (source lines 79-92): the Python triple
`(success, lead_id, error)` plus the transport instrumentation of the
underlying call. -/
structure LookupResult where
  success : Bool
  leadId : Option String
  error : String
  attempts : Nat
  sleeps : List Nat
deriving Repr, DecidableEq

/-- `lookup_lead` (source lines 79-92): one transport call; on a truthy
body, extract the id field with an empty-string default; an absent or
empty id yields the
`"No lead ID in response"` diagnostic; otherwise the transport error is
passed through. -/
def lookup_lead (responses : Nat → HttpResult) : LookupResult :=
  let c := makeRequestWithRetry responses
  if c.success && (match c.data with | some d => d.truthy | none => false) then
    let data := c.data.getD Json.null
    let leadId := data.getD "id" ""
    if leadId ≠ "" then
      ⟨true, some leadId, "", c.attempts, c.sleeps⟩
    else
      ⟨false, none, "No lead ID in response. Response: " ++ data.pyStr.take 100,
        c.attempts, c.sleeps⟩
  else
    ⟨false, none, c.error, c.attempts, c.sleeps⟩

/-- Result of `switch_profile` (source lines 94-111): the Python pair
`(success, error)` plus transport instrumentation. -/
structure SwitchResult where
  success : Bool
  error : String
  attempts : Nat
  sleeps : List Nat
deriving Repr, DecidableEq

/-- `switch_profile` (source lines 94-111): one POST transport call; the
parsed body is discarded, only success matters. -/
def switch_profile (responses : Nat → HttpResult) : SwitchResult :=
  let c := makeRequestWithRetry responses
  if c.success then ⟨true, "", c.attempts, c.sleeps⟩
  else ⟨false, c.error, c.attempts, c.sleeps⟩

/-- The remote behaviour oracle: for the lookup call, responses indexed by
the phone string and the attempt number; for the switch-profile call,
responses indexed by the lead id, the target profile and the attempt
number. -/
structure World where
  lookupResp : String → Nat → HttpResult
  switchResp : String → String → Nat → HttpResult

/-- Result of `process_lead` (source lines 113-128): the Python triple
`(success, lead_id, error)` plus instrumentation for each of the two
transport call sites. -/
structure ProcessLeadResult where
  success : Bool
  leadId : String
  error : String
  lookupAttempts : Nat
  lookupSleeps : List Nat
  mutateAttempts : Nat
  mutateSleeps : List Nat
deriving Repr, DecidableEq

/-- `process_lead` (source lines 113-128): lookup, then on success switch
the profile; a mutate failure still reports the obtained lead id. -/
def process_lead (w : World) (phone targetProfile : String) : ProcessLeadResult :=
  let lr := lookup_lead (w.lookupResp phone)
  if !lr.success then
    ⟨false, "", lr.error, lr.attempts, lr.sleeps, 0, []⟩
  else
    let leadId := lr.leadId.getD ""
    let sw := switch_profile (w.switchResp leadId targetProfile)
    if sw.success then
      ⟨true, leadId, "", lr.attempts, lr.sleeps, sw.attempts, sw.sleeps⟩
    else
      ⟨false, leadId, sw.error, lr.attempts, lr.sleeps, sw.attempts, sw.sleeps⟩

/-- One row of the input dataset, with the five recognized field names;
a missing field is the empty string (Python row.get with an
empty-string default). -/
structure InputRow where
  firstName : String
  lastName : String
  mobilePhone : String
  customerProfile : String
  customerProfileMove : String
deriving Repr, DecidableEq

/-- Phone cleaning from source line 148:
join the digit characters of the raw Mobile Phone field. -/
def cleanPhone (s : String) : String :=
  String.mk (s.data.filter Char.isDigit)

/-- Python `str.strip()`: drop leading and trailing whitespace.  Defined
by structural list recursion (rather than `String.trim`) so that it
evaluates by kernel reduction. -/
def stripStr (s : String) : String :=
  String.mk (((s.data.dropWhile Char.isWhitespace).reverse.dropWhile Char.isWhitespace).reverse)

/-- Profile resolution from source lines 165-167: primary
`Customer Profile` stripped, falling back to `Customer Profile - MOVE`
stripped. -/
def resolveProfile (row : InputRow) : String :=
  let tp := stripStr row.customerProfile
  if tp = "" then stripStr row.customerProfileMove else tp

/-- The two validation rejections of the row loop. -/
inductive ValidationError where
  | invalidPhone : ValidationError
  | missingProfile : ValidationError
deriving Repr, DecidableEq

/-- A validated row: digit-only phone and non-empty resolved profile. -/
structure NormalizedRecord where
  phone : String
  targetProfile : String
  firstName : String
  lastName : String
deriving Repr, DecidableEq

/-- The validation steps of the row loop (source lines 148-181): clean the
phone (empty ⇒ invalid phone), then resolve the target profile (empty ⇒
missing profile), in that order. -/
def validateRow (row : InputRow) : Except ValidationError NormalizedRecord :=
  let phone := cleanPhone row.mobilePhone
  if phone = "" then
    .error .invalidPhone
  else
    let targetProfile := resolveProfile row
    if targetProfile = "" then
      .error .missingProfile
    else
      .ok ⟨phone, targetProfile, row.firstName, row.lastName⟩

/-- One result record appended by `process_csv` (source lines 152-161,
171-180, 204-213). -/
structure Outcome where
  rowNumber : Nat
  firstName : String
  lastName : String
  phone : String
  targetProfile : String
  leadId : String
  status : String
  errorMessage : String
deriving Repr, DecidableEq

/-- Everything one iteration of the `process_csv` loop produces: the
appended `Outcome`, the increments applied to the two counters, the
status-text and progress-bar updates, whether the 0.1 s inter-row sleep
ran, and the transport instrumentation for the row. -/
structure RowResult where
  outcome : Outcome
  succDelta : Nat
  failDelta : Nat
  statusTexts : List String
  progresses : List (Nat × Nat)
  paused : Bool
  lookupAttempts : Nat
  lookupSleeps : List Nat
  mutateAttempts : Nat
  mutateSleeps : List Nat
deriving Repr, DecidableEq

/-- One iteration of the `process_csv` loop (source lines 146-221), at
0-based row position `idx` out of `total` rows.  A validation rejection
appends a FAILED outcome and `continue`s, skipping the status text, the
progress update and the inter-row sleep; a validated row runs
`process_lead`, then updates progress to `(idx + 1) / total` and sleeps
unless it is the last row. -/
def processRow (w : World) (total idx : Nat) (row : InputRow) : RowResult :=
  match validateRow row with
  | .error .invalidPhone =>
    { outcome := ⟨idx + 2, row.firstName, row.lastName, row.mobilePhone,
        row.customerProfile, "", "FAILED", "Invalid phone number"⟩,
      succDelta := 0, failDelta := 1,
      statusTexts := [], progresses := [], paused := false,
      lookupAttempts := 0, lookupSleeps := [], mutateAttempts := 0, mutateSleeps := [] }
  | .error .missingProfile =>
    { outcome := ⟨idx + 2, row.firstName, row.lastName, cleanPhone row.mobilePhone,
        "", "", "FAILED", "No target profile specified"⟩,
      succDelta := 0, failDelta := 1,
      statusTexts := [], progresses := [], paused := false,
      lookupAttempts := 0, lookupSleeps := [], mutateAttempts := 0, mutateSleeps := [] }
  | .ok rec =>
    let leadName := stripStr (rec.firstName ++ " " ++ rec.lastName)
    let statusMsg := "Processing " ++ toString (idx + 1) ++ "/" ++ toString total
      ++ ": " ++ leadName
    let pl := process_lead w rec.phone rec.targetProfile
    let status := if pl.success then "SUCCESS" else "FAILED"
    { outcome := ⟨idx + 2, rec.firstName, rec.lastName, rec.phone,
        rec.targetProfile, pl.leadId, status, pl.error⟩,
      succDelta := if pl.success then 1 else 0,
      failDelta := if pl.success then 0 else 1,
      statusTexts := [statusMsg], progresses := [(idx + 1, total)],
      paused := decide (idx < total - 1),
      lookupAttempts := pl.lookupAttempts, lookupSleeps := pl.lookupSleeps,
      mutateAttempts := pl.mutateAttempts, mutateSleeps := pl.mutateSleeps }

/-- The `process_csv` loop over the remaining rows, carrying the 0-based
position of the next row. -/
def csvGo (w : World) (total : Nat) : Nat → List InputRow → List RowResult
  | _, [] => []
  | idx, row :: rest => processRow w total idx row :: csvGo w total (idx + 1) rest

/-- What `process_csv` returns (source line 227): the results list and the
two counters, plus the per-row instrumentation trace. -/
structure BatchResult where
  results : List Outcome
  successful : Nat
  failed : Nat
  rowTrace : List RowResult

/-- `process_csv` (source lines 130-227): iterate the loop body over the
rows in order; the counters accumulate the per-branch increments. -/
def process_csv (w : World) (rows : List InputRow) : BatchResult :=
  let rrs := csvGo w rows.length 0 rows
  { results := rrs.map RowResult.outcome,
    successful := (rrs.map RowResult.succDelta).sum,
    failed := (rrs.map RowResult.failDelta).sum,
    rowTrace := rrs }

/-- A world whose every call times out; used where the transport is never
reached. -/
def worldNone : World :=
  ⟨fun _ _ => .timeout, fun _ _ _ => .timeout⟩

/-- A world whose lookup always answers HTTP 404. -/
def world404 : World :=
  ⟨fun _ _ => .resp 404 none "", fun _ _ _ => .timeout⟩

/-- A world whose lookup answers 200 with a body carrying the id
abc123, and whose switch-profile call always answers HTTP 429. -/
def world429 : World :=
  ⟨fun _ _ => .resp 200 (some (.obj [("id", "abc123")])) "",
   fun _ _ _ => .resp 429 none ""⟩

/-- A world whose lookup answers 200 with a body carrying the id
abc123, and whose switch-profile call answers 200 with a parseable
body. -/
def worldOk : World :=
  ⟨fun _ _ => .resp 200 (some (.obj [("id", "abc123")])) "",
   fun _ _ _ => .resp 200 (some (.obj [])) ""⟩

/-- A world whose lookup answers 200 with the falsy parsed body `null`. -/
def worldFalsy : World :=
  ⟨fun _ _ => .resp 200 (some .null) "", fun _ _ _ => .timeout⟩

/-- A world whose lookup answers 200 with a truthy body lacking an id. -/
def worldNoId : World :=
  ⟨fun _ _ => .resp 200 (some (.obj [("name", "x")])) "", fun _ _ _ => .timeout⟩

/-- A row whose phone field has no digits. -/
def rowBadPhone : InputRow := ⟨"Ann", "Lee", "---", "VIP", ""⟩

/-- A row with a valid phone but both profile fields blank. -/
def rowNoProfile : InputRow := ⟨"Ann", "Lee", "555", "  ", " "⟩

/-- The scenario row of the spec: phone `(555) 123-4567`, profile `VIP`. -/
def rowVip : InputRow := ⟨"Jane", "Doe", "(555) 123-4567", "VIP", ""⟩

/-! ### Helper lemmas -/

theorem csvGo_length (w : World) (total : Nat) :
    ∀ (rows : List InputRow) (idx : Nat), (csvGo w total idx rows).length = rows.length
  | [], _ => rfl
  | _ :: rest, idx => by
    simp [csvGo, csvGo_length w total rest (idx + 1)]

theorem csvGo_getElem? (w : World) (total : Nat) :
    ∀ (rows : List InputRow) (idx i : Nat),
      (csvGo w total idx rows)[i]? = (rows[i]?).map (fun row => processRow w total (idx + i) row)
  | [], _, _ => by simp [csvGo]
  | row :: rest, idx, 0 => by simp [csvGo]
  | row :: rest, idx, i + 1 => by
    have ih := csvGo_getElem? w total rest (idx + 1) i
    simp only [csvGo, List.getElem?_cons_succ, ih]
    have : idx + 1 + i = idx + (i + 1) := by omega
    rw [this]

theorem processRow_delta (w : World) (total idx : Nat) (row : InputRow) :
    (processRow w total idx row).succDelta + (processRow w total idx row).failDelta = 1 := by
  unfold processRow
  cases hv : validateRow row with
  | error e => cases e <;> rfl
  | ok rec =>
    cases hs : (process_lead w rec.phone rec.targetProfile).success <;> simp [hs]

theorem csvGo_delta_sum (w : World) (total : Nat) :
    ∀ (rows : List InputRow) (idx : Nat),
      ((csvGo w total idx rows).map RowResult.succDelta).sum
        + ((csvGo w total idx rows).map RowResult.failDelta).sum = rows.length
  | [], _ => rfl
  | row :: rest, idx => by
    have ih := csvGo_delta_sum w total rest (idx + 1)
    have hd := processRow_delta w total idx row
    simp only [csvGo, List.map_cons, List.sum_cons, List.length_cons]
    omega

/-! ### Claims -/

/-- Claim C1: for every input sequence of N rows, `process_csv` produces a
result list with exactly N `Outcome` records, one per input row and in
input order: the i-th result is exactly the outcome of the loop body run
on the i-th input row. -/
theorem C1_one_outcome_per_row_in_order (w : World) (rows : List InputRow) :
    (process_csv w rows).results.length = rows.length ∧
    ∀ i : Nat, (process_csv w rows).results[i]? =
      (rows[i]?).map (fun row => (processRow w rows.length i row).outcome) := by
  constructor
  · simp [process_csv, csvGo_length]
  · intro i
    simp only [process_csv, List.getElem?_map, csvGo_getElem? w rows.length rows 0 i,
      Nat.zero_add, Option.map_map]
    rfl

/-- Claim C2: after `process_csv` completes, the successful count plus the
failed count equals the number of input rows. -/
theorem C2_success_plus_failed_eq_total (w : World) (rows : List InputRow) :
    (process_csv w rows).successful + (process_csv w rows).failed = rows.length := by
  simpa [process_csv] using csvGo_delta_sum w rows.length rows 0

theorem retryAux_200 (responses : Nat → HttpResult) (attempt remaining : Nat)
    (sleeps : List Nat) {j : Json} {t : String}
    (h : responses attempt = .resp 200 (some j) t) :
    retryAux responses attempt (remaining + 1) sleeps =
      ⟨true, some j, "", attempt + 1, sleeps.reverse⟩ := by
  conv_lhs => unfold retryAux
  rw [h]
  rfl

theorem retryAux_404 (responses : Nat → HttpResult) (attempt remaining : Nat)
    (sleeps : List Nat) {b : Option Json} {t : String}
    (h : responses attempt = .resp 404 b t) :
    retryAux responses attempt (remaining + 1) sleeps =
      ⟨false, none, "Lead not found", attempt + 1, sleeps.reverse⟩ := by
  conv_lhs => unfold retryAux
  rw [h]
  rfl

theorem retryAux_429_retry (responses : Nat → HttpResult) (attempt remaining : Nat)
    (sleeps : List Nat) {b : Option Json} {t : String}
    (h : responses attempt = .resp 429 b t) (hlt : attempt < MAX_RETRIES - 1) :
    retryAux responses attempt (remaining + 1) sleeps =
      retryAux responses (attempt + 1) remaining (RETRY_DELAY * 2 :: sleeps) := by
  conv_lhs => unfold retryAux
  rw [h]
  simp [hlt]

theorem retryAux_429_stop (responses : Nat → HttpResult) (attempt remaining : Nat)
    (sleeps : List Nat) {b : Option Json} {t : String}
    (h : responses attempt = .resp 429 b t) (hge : ¬ attempt < MAX_RETRIES - 1) :
    retryAux responses attempt (remaining + 1) sleeps =
      ⟨false, none, "Rate limited", attempt + 1, sleeps.reverse⟩ := by
  conv_lhs => unfold retryAux
  rw [h]
  simp [hge]

/-- Claim C3: a row whose phone field has no digit characters after
stripping non-digits yields a FAILED outcome with the invalid-phone error
message and empty lead id, and makes no transport call (neither lookup
nor mutate). -/
theorem C3_invalid_phone_no_transport (w : World) (total idx : Nat) (row : InputRow)
    (h : cleanPhone row.mobilePhone = "") :
    (processRow w total idx row).outcome.status = "FAILED" ∧
    (processRow w total idx row).outcome.errorMessage = "Invalid phone number" ∧
    (processRow w total idx row).outcome.leadId = "" ∧
    (processRow w total idx row).lookupAttempts = 0 ∧
    (processRow w total idx row).mutateAttempts = 0 := by
  simp [processRow, validateRow, h]

theorem C3_witness :
    cleanPhone rowBadPhone.mobilePhone = "" ∧
    ((processRow worldNone 1 0 rowBadPhone).outcome.status = "FAILED" ∧
      (processRow worldNone 1 0 rowBadPhone).outcome.errorMessage = "Invalid phone number" ∧
      (processRow worldNone 1 0 rowBadPhone).outcome.leadId = "" ∧
      (processRow worldNone 1 0 rowBadPhone).lookupAttempts = 0 ∧
      (processRow worldNone 1 0 rowBadPhone).mutateAttempts = 0) :=
  ⟨rfl, C3_invalid_phone_no_transport worldNone 1 0 rowBadPhone rfl⟩

/-- Claim C4: a row whose cleaned phone is non-empty but whose primary
profile field trims to empty and whose fallback `Customer Profile - MOVE`
field also trims to empty yields a FAILED outcome with the
missing-profile error and makes no transport call; since the phone check
has already passed, the profile error is the first (and only) failing
check reported. -/
theorem C4_missing_profile_no_transport (w : World) (total idx : Nat) (row : InputRow)
    (hp : cleanPhone row.mobilePhone ≠ "")
    (h1 : stripStr row.customerProfile = "")
    (h2 : stripStr row.customerProfileMove = "") :
    (processRow w total idx row).outcome.status = "FAILED" ∧
    (processRow w total idx row).outcome.errorMessage = "No target profile specified" ∧
    (processRow w total idx row).outcome.leadId = "" ∧
    (processRow w total idx row).lookupAttempts = 0 ∧
    (processRow w total idx row).mutateAttempts = 0 := by
  simp [processRow, validateRow, resolveProfile, hp, h1, h2]

theorem C4_witness :
    cleanPhone rowNoProfile.mobilePhone ≠ "" ∧
    stripStr rowNoProfile.customerProfile = "" ∧
    stripStr rowNoProfile.customerProfileMove = "" ∧
    ((processRow worldNone 1 0 rowNoProfile).outcome.status = "FAILED" ∧
      (processRow worldNone 1 0 rowNoProfile).outcome.errorMessage = "No target profile specified" ∧
      (processRow worldNone 1 0 rowNoProfile).outcome.leadId = "" ∧
      (processRow worldNone 1 0 rowNoProfile).lookupAttempts = 0 ∧
      (processRow worldNone 1 0 rowNoProfile).mutateAttempts = 0) :=
  ⟨by decide, by decide, by decide,
    C4_missing_profile_no_transport worldNone 1 0 rowNoProfile (by decide) (by decide) (by decide)⟩

/-- Claim C5: for a validated row whose lookup call answers HTTP 404 on
the first attempt, the transport makes exactly one attempt (no retry, no
backoff sleep), the mutate call is never made, and the outcome has empty
lead id, status FAILED and error message "Lead not found". -/
theorem C5_lookup_404_single_attempt (w : World) (total idx : Nat) (row : InputRow)
    (b : Option Json) (t : String)
    (hp : cleanPhone row.mobilePhone ≠ "")
    (htp : resolveProfile row ≠ "")
    (h404 : w.lookupResp (cleanPhone row.mobilePhone) 0 = .resp 404 b t) :
    (processRow w total idx row).outcome.leadId = "" ∧
    (processRow w total idx row).outcome.status = "FAILED" ∧
    (processRow w total idx row).outcome.errorMessage = "Lead not found" ∧
    (processRow w total idx row).lookupAttempts = 1 ∧
    (processRow w total idx row).lookupSleeps = [] ∧
    (processRow w total idx row).mutateAttempts = 0 := by
  have hcall : makeRequestWithRetry (w.lookupResp (cleanPhone row.mobilePhone)) =
      ⟨false, none, "Lead not found", 1, []⟩ := by
    rw [makeRequestWithRetry, show MAX_RETRIES = 2 + 1 from rfl,
      retryAux_404 (w.lookupResp (cleanPhone row.mobilePhone)) 0 2 [] h404]
    rfl
  have hlk : lookup_lead (w.lookupResp (cleanPhone row.mobilePhone)) =
      ⟨false, none, "Lead not found", 1, []⟩ := by
    simp [lookup_lead, hcall]
  simp [processRow, validateRow, hp, htp, process_lead, hlk]

theorem C5_witness :
    cleanPhone rowVip.mobilePhone ≠ "" ∧
    resolveProfile rowVip ≠ "" ∧
    world404.lookupResp (cleanPhone rowVip.mobilePhone) 0 = .resp 404 none "" ∧
    ((processRow world404 1 0 rowVip).outcome.leadId = "" ∧
      (processRow world404 1 0 rowVip).outcome.status = "FAILED" ∧
      (processRow world404 1 0 rowVip).outcome.errorMessage = "Lead not found" ∧
      (processRow world404 1 0 rowVip).lookupAttempts = 1 ∧
      (processRow world404 1 0 rowVip).lookupSleeps = [] ∧
      (processRow world404 1 0 rowVip).mutateAttempts = 0) :=
  ⟨by decide, by decide, rfl,
    C5_lookup_404_single_attempt world404 1 0 rowVip none "" (by decide) (by decide) rfl⟩

/-- Claim C6: for a validated row whose lookup succeeds with lead id
`lid` and whose switch-profile call answers HTTP 429 on every attempt,
the transport makes exactly `MAX_RETRIES` attempts for the mutate call,
sleeping `RETRY_DELAY * 2` before each of the two retries, and the
outcome carries the obtained lead id, status FAILED and the rate-limited
error message. -/
theorem C6_mutate_rate_limited (w : World) (total idx : Nat) (row : InputRow)
    (body : Json) (t : String) (lid : String)
    (b429 : Nat → Option Json) (t429 : Nat → String)
    (hp : cleanPhone row.mobilePhone ≠ "")
    (htp : resolveProfile row ≠ "")
    (hl : w.lookupResp (cleanPhone row.mobilePhone) 0 = .resp 200 (some body) t)
    (htr : body.truthy = true)
    (hid : body.getD "id" "" = lid)
    (hlid : lid ≠ "")
    (hsw : ∀ n, w.switchResp lid (resolveProfile row) n = .resp 429 (b429 n) (t429 n)) :
    (processRow w total idx row).mutateAttempts = MAX_RETRIES ∧
    (processRow w total idx row).mutateSleeps = [RETRY_DELAY * 2, RETRY_DELAY * 2] ∧
    (processRow w total idx row).outcome.leadId = lid ∧
    (processRow w total idx row).outcome.status = "FAILED" ∧
    (processRow w total idx row).outcome.errorMessage = "Rate limited" := by
  have hcall : makeRequestWithRetry (w.lookupResp (cleanPhone row.mobilePhone)) =
      ⟨true, some body, "", 1, []⟩ := by
    rw [makeRequestWithRetry, show MAX_RETRIES = 2 + 1 from rfl,
      retryAux_200 (w.lookupResp (cleanPhone row.mobilePhone)) 0 2 [] hl]
    rfl
  have hlk : lookup_lead (w.lookupResp (cleanPhone row.mobilePhone)) =
      ⟨true, some lid, "", 1, []⟩ := by
    simp [lookup_lead, hcall, htr, hid, hlid]
  have hswcall : makeRequestWithRetry (w.switchResp lid (resolveProfile row)) =
      ⟨false, none, "Rate limited", 3, [RETRY_DELAY * 2, RETRY_DELAY * 2]⟩ := by
    rw [makeRequestWithRetry, show MAX_RETRIES = 2 + 1 from rfl,
      retryAux_429_retry (w.switchResp lid (resolveProfile row)) 0 2 [] (hsw 0) (by decide),
      retryAux_429_retry (w.switchResp lid (resolveProfile row)) 1 1
        (RETRY_DELAY * 2 :: []) (hsw 1) (by decide),
      retryAux_429_stop (w.switchResp lid (resolveProfile row)) 2 0
        (RETRY_DELAY * 2 :: RETRY_DELAY * 2 :: []) (hsw 2) (by decide)]
    rfl
  have hswp : switch_profile (w.switchResp lid (resolveProfile row)) =
      ⟨false, "Rate limited", 3, [RETRY_DELAY * 2, RETRY_DELAY * 2]⟩ := by
    simp [switch_profile, hswcall]
  simp [processRow, validateRow, hp, htp, process_lead, hlk, hswp, MAX_RETRIES]

theorem C6_witness :
    cleanPhone rowVip.mobilePhone ≠ "" ∧
    resolveProfile rowVip ≠ "" ∧
    world429.lookupResp (cleanPhone rowVip.mobilePhone) 0 =
      .resp 200 (some (.obj [("id", "abc123")])) "" ∧
    (Json.obj [("id", "abc123")]).truthy = true ∧
    (Json.obj [("id", "abc123")]).getD "id" "" = "abc123" ∧
    (∀ n, world429.switchResp "abc123" (resolveProfile rowVip) n = .resp 429 none "") ∧
    ((processRow world429 1 0 rowVip).mutateAttempts = MAX_RETRIES ∧
      (processRow world429 1 0 rowVip).mutateSleeps = [RETRY_DELAY * 2, RETRY_DELAY * 2] ∧
      (processRow world429 1 0 rowVip).outcome.leadId = "abc123" ∧
      (processRow world429 1 0 rowVip).outcome.status = "FAILED" ∧
      (processRow world429 1 0 rowVip).outcome.errorMessage = "Rate limited") :=
  ⟨by decide, by decide, rfl, rfl, rfl, fun _ => rfl,
    C6_mutate_rate_limited world429 1 0 rowVip (.obj [("id", "abc123")]) "" "abc123"
      (fun _ => none) (fun _ => "") (by decide) (by decide) rfl rfl rfl
      (by decide) (fun _ => rfl)⟩

/-- Claim C7 (counterexample): the claim says every input row, including
rows rejected by validation, gets a progress report and (unless last) an
inter-row pause.  On the two-row batch of invalid-phone rows the loop
body hits `continue` before the progress update and the sleep, so no
progress is reported for either row ((1,2) and (2,2) were expected) and
no pause happens after the first row. -/
theorem C7_counterexample :
    (process_csv worldNone [rowBadPhone, rowBadPhone]).rowTrace.map RowResult.progresses
      = [[], []] ∧
    (process_csv worldNone [rowBadPhone, rowBadPhone]).rowTrace.map RowResult.paused
      = [false, false] := by
  constructor <;> rfl

/-- Claim C7 (amended): for every input row that passes validation
(non-empty cleaned phone and non-empty resolved profile), after the row
is processed the orchestrator reports incremental progress
`(idx + 1) / total` to the progress sink, and pauses the small fixed
inter-row interval exactly when the row is not the last one; rows
rejected by validation get neither. -/
theorem C7_amended_progress_for_validated_rows (w : World) (total idx : Nat)
    (row : InputRow)
    (hp : cleanPhone row.mobilePhone ≠ "")
    (htp : resolveProfile row ≠ "") :
    (processRow w total idx row).progresses = [(idx + 1, total)] ∧
    ((processRow w total idx row).paused = true ↔ idx < total - 1) := by
  simp [processRow, validateRow, hp, htp]

theorem C7_witness :
    cleanPhone rowVip.mobilePhone ≠ "" ∧
    resolveProfile rowVip ≠ "" ∧
    ((processRow worldOk 2 0 rowVip).progresses = [(1, 2)] ∧
      ((processRow worldOk 2 0 rowVip).paused = true ↔ 0 < 2 - 1)) :=
  ⟨by decide, by decide,
    C7_amended_progress_for_validated_rows worldOk 2 0 rowVip (by decide) (by decide)⟩

/-- Claim C8: the concrete scenario row with phone `(555) 123-4567` and
profile `VIP` normalizes to phone `5551234567` and profile `VIP`; with
lookup answering 200 with a body carrying the id abc123 and the mutate
call answering 200
with a parseable body, the outcome is lead id `abc123`, status SUCCESS,
empty error message, and row number `idx + 2` for 0-based index `idx`. -/
theorem C8_success_scenario (total idx : Nat) :
    cleanPhone rowVip.mobilePhone = "5551234567" ∧
    resolveProfile rowVip = "VIP" ∧
    (processRow worldOk total idx rowVip).outcome =
      ⟨idx + 2, "Jane", "Doe", "5551234567", "VIP", "abc123", "SUCCESS", ""⟩ := by
  refine ⟨by decide, by decide, ?_⟩
  rfl

/-- Claim C9: validation is deterministic — it is a function of the row
fields alone, so two rows with identical fields validate to identical
results
(`NormalizedRecord` or `ValidationError`); in particular running the
phone-normalization and profile-resolution steps twice on the same row
yields identical results. -/
theorem C9_validation_deterministic (r1 r2 : InputRow)
    (hf : r1.firstName = r2.firstName)
    (hl : r1.lastName = r2.lastName)
    (hm : r1.mobilePhone = r2.mobilePhone)
    (hc : r1.customerProfile = r2.customerProfile)
    (hcm : r1.customerProfileMove = r2.customerProfileMove) :
    validateRow r1 = validateRow r2 := by
  cases r1
  cases r2
  simp_all

theorem C9_witness :
    rowVip.firstName = rowVip.firstName ∧
    validateRow rowVip = validateRow rowVip :=
  ⟨rfl, C9_validation_deterministic rowVip rowVip rfl rfl rfl rfl rfl⟩

/-- Claim C10: when lookup answers HTTP 200 with a parseable but falsy
body (`null` or `{}`), `lookup_lead` falls through to the transport error,
which is the empty string on the success path, so the outcome is FAILED
with empty lead id and empty error message; the
`"No lead ID in response"` diagnostic is produced only when the body is
truthy but its `id` field is absent or empty. -/
theorem C10_falsy_body_empty_error (w : World) (total idx : Nat) (row : InputRow)
    (body : Json) (t : String)
    (hp : cleanPhone row.mobilePhone ≠ "")
    (htp : resolveProfile row ≠ "")
    (hl : w.lookupResp (cleanPhone row.mobilePhone) 0 = .resp 200 (some body) t) :
    (body.truthy = false →
      (processRow w total idx row).outcome.status = "FAILED" ∧
      (processRow w total idx row).outcome.leadId = "" ∧
      (processRow w total idx row).outcome.errorMessage = "") ∧
    (body.truthy = true → body.getD "id" "" = "" →
      (processRow w total idx row).outcome.errorMessage =
        "No lead ID in response. Response: " ++ body.pyStr.take 100) := by
  have hcall : makeRequestWithRetry (w.lookupResp (cleanPhone row.mobilePhone)) =
      ⟨true, some body, "", 1, []⟩ := by
    rw [makeRequestWithRetry, show MAX_RETRIES = 2 + 1 from rfl,
      retryAux_200 (w.lookupResp (cleanPhone row.mobilePhone)) 0 2 [] hl]
    rfl
  constructor
  · intro hfalsy
    have hlk : lookup_lead (w.lookupResp (cleanPhone row.mobilePhone)) =
        ⟨false, none, "", 1, []⟩ := by
      simp [lookup_lead, hcall, hfalsy]
    simp [processRow, validateRow, hp, htp, process_lead, hlk]
  · intro htr hid
    have hlk : lookup_lead (w.lookupResp (cleanPhone row.mobilePhone)) =
        ⟨false, none, "No lead ID in response. Response: " ++ body.pyStr.take 100, 1, []⟩ := by
      simp [lookup_lead, hcall, htr, hid]
    simp [processRow, validateRow, hp, htp, process_lead, hlk]

theorem C10_witness :
    cleanPhone rowVip.mobilePhone ≠ "" ∧
    resolveProfile rowVip ≠ "" ∧
    worldFalsy.lookupResp (cleanPhone rowVip.mobilePhone) 0 = .resp 200 (some .null) "" ∧
    Json.null.truthy = false ∧
    ((processRow worldFalsy 1 0 rowVip).outcome.status = "FAILED" ∧
      (processRow worldFalsy 1 0 rowVip).outcome.leadId = "" ∧
      (processRow worldFalsy 1 0 rowVip).outcome.errorMessage = "") :=
  ⟨by decide, by decide, rfl, rfl,
    (C10_falsy_body_empty_error worldFalsy 1 0 rowVip .null "" (by decide) (by decide) rfl).1 rfl⟩
